import Mathlib

/-!
Shallow embedding of `src/check_info.py` (RedBot info.json validator).

Conventions used throughout:
* A parsed JSON value is a `JValue`; a parsed document is an association list
  `List (String × JValue)` in insertion order (Python dicts preserve order).
* Python exceptions are modelled by `PyErr`; a function that can raise returns
  `Except PyErr _`.
* `print_message` calls are modelled by collecting `Diag` records; a procedure
  that prints and may raise returns `List Diag × Option PyErr`, the diagnostics
  printed before the (optional) uncaught exception escaped.
* Python `None` returned from a `bool`-annotated function is modelled by
  `Option Bool` (`none` is the falsy `None`).
-/

/-- Python exceptions that the embedded code can raise. -/
inductive PyErr
  | attributeError (attr : String)
  | typeError (msg : String)
  | exception (msg : String)
  | keyError (key : String)
  | configNotFound
deriving DecidableEq

/-- Python runtime type tags, as produced by `type(...)`, for the value shapes
that can occur in a parsed `info.json` document. Python treats `bool` as a type
distinct from `int` for the purposes of `type(x) is int`. -/
inductive PyType
  | str
  | int
  | bool
  | list
  | dict
  | noneType
deriving DecidableEq

/-- A parsed JSON value. -/
inductive JValue
  | str (s : String)
  | int (n : Int)
  | bool (b : Bool)
  | list (xs : List JValue)
  | dict (entries : List (String × JValue))
  | null

/-- `type(val)` for a JSON value. -/
def pyTypeOf : JValue → PyType
  | .str _ => .str
  | .int _ => .int
  | .bool _ => .bool
  | .list _ => .list
  | .dict _ => .dict
  | .null => .noneType

/-- One `print_message` call (src lines 14-15). The fields are exactly the
parameters of `print_message(level, file, line, col, message)`, in order; the
`line` field is rendered as `line=` and the `col` field as `col=` in the
output annotation. -/
structure Diag where
  level : String
  file : String
  line : Nat
  col : Nat
  message : String
deriving DecidableEq

/-- Association-list lookup by key, modelling both Python dict subscripting
(`d[k]` present iff `some`) and dict membership (`k in d` iff `isSome`).
Matches the first binding, as Python dicts have unique keys. -/
def lookupKey {α : Type} : List (String × α) → String → Option α
  | [], _ => none
  | (k, v) :: rest, key => if k = key then some v else lookupKey rest key

/-- Python `str.lower()`, restricted to its ASCII action. Every key occurring
in the fixed schemas and in the concrete inputs evaluated below is ASCII. -/
def pyLower (s : String) : String := ⟨s.data.map Char.toLower⟩

/-- The ASCII characters matched by the regex class `\s`. All inputs evaluated
in this development are ASCII, where this coincides with Python `\s`. -/
def isPySpace (c : Char) : Bool :=
  c = ' ' || c = '\t' || c = '\n' || c = '\r' || c = '\x0b' || c = '\x0c'

/-- Strip an exact literal character sequence from the front of `cs`, giving
the remainder on success. -/
def stripLit : List Char → List Char → Option (List Char)
  | [], cs => some cs
  | _ :: _, [] => none
  | p :: ps, c :: cs => if c = p then stripLit ps cs else none

/-- Does the regex `"key"\s?:` (src line 19) match starting exactly here?
The interpolated key is taken as a literal: every key used with `get_key_pos`
in this development contains no regex metacharacters. -/
def patMatchAt (key : List Char) (cs : List Char) : Bool :=
  match stripLit ('"' :: (key ++ ['"'])) cs with
  | none => false
  | some rest =>
    match rest with
    | ':' :: _ => true
    | c :: ':' :: _ => isPySpace c
    | _ => false

/-- `re.search` of the pattern `"key"\s?:` over one line: the 0-indexed start
position of the leftmost match, or `none` when the line has no match. -/
def reSearchPos (key : List Char) : List Char → Option Nat
  | [] => if patMatchAt key [] then some 0 else none
  | c :: cs =>
    if patMatchAt key (c :: cs) then some 0
    else (reSearchPos key cs).map (fun n => n + 1)

/-- Python `text.split("\n")`: never returns an empty list; the empty string
splits to `[""]`. -/
def splitNl : List Char → List (List Char)
  | [] => [[]]
  | c :: rest =>
    match splitNl rest with
    | [] => [[c]]
    | l :: ls => if c = '\n' then [] :: l :: ls else (c :: l) :: ls

/-- The body of the `for i, line in enumerate(lines)` loop of `get_key_pos`
(src lines 22-27), faithfully including that the `raise` sits INSIDE the loop:
the body either returns or raises on its very first iteration, so no later
line is ever examined. `.ok none` models the implicit `None` return when the
line list is empty, which is unreachable because `splitNl` never returns an
empty list. -/
def gkpLoop (key : List Char) : List (List Char) → Nat → Except PyErr (Option (Nat × Nat))
  | [], _ => .ok none
  | line :: _, i =>
    match reSearchPos key line with
    | none => .error (.exception "could not get position of key")
    | some j => .ok (some (i + 1, j + 1))

/-- Embedding of `get_key_pos` (src lines 18-27). It takes the file text
directly instead of the filename (the Python function only ever reads the file
whole). On success the result is `(1-indexed line, 1-indexed column)` of the
match of `"key"\s?:`. -/
def get_key_pos (ftext key : String) : Except PyErr (Option (Nat × Nat)) :=
  gkpLoop key.data (splitNl ftext.data) 0

/-- The Python value handed to `type_check` and `type_to_str` as
`desired_type`: a schema entry of `RepoConfig.KEYS` / `CogConfig.KEYS`
(src lines 120, 131-144), or the generic alias produced at src line 52.
* `builtin t` is a raw builtin type object such as `str`, `int`, `bool`,
  `dict` — or `list` itself, though no schema entry is the bare `list` type.
* `listInst es` is a list literal such as `[str]` (a list INSTANCE, which is
  not identical to the type object `list`).
* `dictInst ty vals` is a dict literal; the only dict literal in the source is
  `("type": str, "values": ["COG", "SHARED_LIBRARY"])` (braces elided), so the
  two optional fields model membership of the keys `"type"` and `"values"`.
* `genAlias` is the `types.GenericAlias` that `desired_type[0]` yields when
  `desired_type` is the builtin `list` type (Python 3.9+ semantics; that
  branch is unreachable from the fixed schemas either way). -/
inductive DType
  | builtin (t : PyType)
  | listInst (elems : List DType)
  | dictInst (ty : Option DType) (vals : Option (List JValue))
  | genAlias

/-- `type(val) is desired_type` (src line 64): only a builtin type object can
be identical to `type(val)`; against a list literal, a dict literal or a
generic alias the identity test is always `False`. -/
def typeIs (val : JValue) : DType → Bool
  | .builtin t => pyTypeOf val == t
  | .listInst _ => false
  | .dictInst _ _ => false
  | .genAlias => false

/-- Python truthiness of an `Option Bool` (`None` is falsy). -/
def truthy : Option Bool → Bool
  | some b => b
  | none => false

/-- The final `else` branch of `type_check` (src lines 63-64):
`return type(val) is desired_type`. -/
def typeIsCheck (val : JValue) (dt : DType) : Except PyErr (Option Bool) :=
  .ok (some (typeIs val dt))

/-- The `for i in val` loop of `type_check` (src lines 51-54). Each iteration
evaluates `self.type_check(val[0], desired_type[0])` — note the source checks
`val[0]`, not the loop variable `i` — with loop-invariant arguments, so the
result `check` of that call is the same pure value every iteration and is
passed in precomputed. If every iteration passes, control falls out of the
loop and out of the function: the branch has no `return True`, so the
function returns `None`. -/
def tc_loop (check : Except PyErr (Option Bool)) : List JValue → Except PyErr (Option Bool)
  | [] => .ok none
  | _ :: rest =>
    match check with
    | .error e => .error e
    | .ok c => if truthy c then tc_loop check rest else .ok (some false)

/-- Embedding of `Config.type_check` (src lines 47-64).
* `if desired_type is list` (line 48) holds only for the bare builtin `list`
  type object — never for a schema list literal like `[str]`.
* `elif desired_type is dict` (line 55) holds only for the bare builtin `dict`
  type object (the `required_cogs` schema entry); there, `"type" in
  desired_type` (line 56) raises `TypeError: argument of type 'type' is not
  iterable`, so src lines 57-62 are unreachable and are not embedded.
* Everything else reaches `return type(val) is desired_type` (line 64).
In the list branch, the recursive call `self.type_check(val[0],
desired_type[0])` has `desired_type[0] = list[0]`, a generic alias, which the
callee answers in its `else` branch; the call is therefore embedded as
`typeIsCheck val0 .genAlias`, and `type_check_genAlias` below certifies that
this equals `type_check val0 .genAlias` exactly. -/
def type_check (val : JValue) (dt : DType) : Except PyErr (Option Bool) :=
  match dt with
  | .builtin .list =>
    match val with
    | .list [] => .ok none
    | .list (v0 :: rest) => tc_loop (typeIsCheck v0 .genAlias) (v0 :: rest)
    | _ => .ok (some false)
  | .builtin .dict =>
    .error (.typeError "argument of type 'type' is not iterable")
  | _ => typeIsCheck val dt

/-- The inlining used in the list branch of `type_check` is exact: a recursive
call on a generic alias lands in the final `else` branch. -/
theorem type_check_genAlias (v : JValue) :
    type_check v .genAlias = typeIsCheck v .genAlias := rfl

/-- The methods the class `Config` actually defines (src lines 34-116); its
subclasses `RepoConfig` and `CogConfig` add only `__init__` and data
attributes. Attribute lookup of any other method name on a config object
raises `AttributeError`. -/
def config_methods : List String := ["type_to_str", "type_check", "validate_info"]

/-- Sequencing of two printing computations: if the first raised, the second
never runs and its output is discarded; otherwise outputs concatenate and the
second's exception (if any) escapes. -/
def seqRun (a b : List Diag × Option PyErr) : List Diag × Option PyErr :=
  match a.2 with
  | some e => (a.1, some e)
  | none => (a.1 ++ b.1, b.2)

/-- The `for key in info` key-validity loop of `validate_info`
(src lines 72-90). For a document key absent from `KEYS` it looks up the key
position and prints a `warning`; NOTE the argument order at src lines 76-90:
`print_message(_, filename, col, line, msg)` — the position components are
passed swapped, so the `Diag.line` field receives `col` and the `Diag.col`
field receives `line`. If `get_key_pos` raises, the exception escapes the
loop; if it returned `None`, unpacking `line, col` raises `TypeError`. -/
def keys_loop (KEYS : List (String × DType)) :
    List (String × JValue) → String → String → List Diag × Option PyErr
  | [], _, _ => ([], none)
  | (key, _) :: rest, ftext, f =>
    if (lookupKey KEYS key).isSome then keys_loop KEYS rest ftext f
    else
      match get_key_pos ftext key with
      | .error e => ([], some e)
      | .ok none => ([], some (.typeError "cannot unpack non-iterable NoneType object"))
      | .ok (some (line, col)) =>
        let msg :=
          if (lookupKey KEYS (pyLower key)).isSome then
            "KeyError: key `" ++ key ++ "` needs to be lowercase"
          else
            "KeyError: unrecognised key `" ++ key ++ "`"
        let tail := keys_loop KEYS rest ftext f
        (⟨"warning", f, col, line, msg⟩ :: tail.1, tail.2)

/-- The required-keys loop of `validate_info` (src lines 92-100): for every
configured required key missing from the document, print a diagnostic at
position (1, 1) with severity `"error" if not IGNORE_ERRORS else "warning"`. -/
def required_keys_loop (required : List String) (info : List (String × JValue))
    (ignoreErrors : Bool) (f : String) : List Diag × Option PyErr :=
  match required with
  | [] => ([], none)
  | key :: rest =>
    let tail := required_keys_loop rest info ignoreErrors f
    if (lookupKey info key).isSome then tail
    else
      (⟨if !ignoreErrors then "error" else "warning", f, 1, 1,
        "KeyError: required key `" ++ key ++ "` missing"⟩ :: tail.1, tail.2)

/-- The type-validity loop of `validate_info` (src lines 102-116): keys absent
from `KEYS` are skipped, and for the first key present in `KEYS` the call
`self.validate_type(val, self.KEYS[key])` (src line 106) raises
`AttributeError`, because `Config` defines no method `validate_type` (its type
checker is named `type_check`); src lines 107-116 are unreachable. -/
def types_loop (KEYS : List (String × DType)) :
    List (String × JValue) → List Diag × Option PyErr
  | [] => ([], none)
  | (key, _) :: rest =>
    if (lookupKey KEYS key).isNone then types_loop KEYS rest
    else ([], some (.attributeError "validate_type"))

/-- Embedding of `Config.validate_info` (src lines 66-116), parameterized by
the schema `KEYS`, the configured required keys `self.options["required-keys"]`
and the global `IGNORE_ERRORS` flag. The method begins (src lines 69-71) with
`self.validate_keys(info)`, `self.validate_required_keys(info)` and
`self.validate_types(info)`; none of these attributes exists on `Config` or
its subclasses, so the first lookup raises `AttributeError` before anything is
printed. The three inline loops that follow (src lines 72-116) are embedded
after those attribute-lookup guards. -/
def validate_info (KEYS : List (String × DType)) (required : List String)
    (ignoreErrors : Bool) (info : List (String × JValue)) (ftext f : String) :
    List Diag × Option PyErr :=
  if config_methods.contains "validate_keys" then
    if config_methods.contains "validate_required_keys" then
      if config_methods.contains "validate_types" then
        seqRun (keys_loop KEYS info ftext f)
          (seqRun (required_keys_loop required info ignoreErrors f)
            (types_loop KEYS info))
      else ([], some (.attributeError "validate_types"))
    else ([], some (.attributeError "validate_required_keys"))
  else ([], some (.attributeError "validate_keys"))

/-- `RepoConfig.KEYS` (src line 120). -/
def repoKEYS : List (String × DType) :=
  [("author", .listInst [.builtin .str]),
   ("description", .builtin .str),
   ("install_msg", .builtin .str),
   ("short", .builtin .str)]

/-- The `"type"` entry of `CogConfig.KEYS` (src line 143): the dict literal
with base type `str` and the whitelist `["COG", "SHARED_LIBRARY"]`. -/
def cogTypeSpec : DType :=
  .dictInst (some (.builtin .str)) (some [.str "COG", .str "SHARED_LIBRARY"])

/-- `CogConfig.KEYS` (src lines 131-144). -/
def cogKEYS : List (String × DType) :=
  [("author", .listInst [.builtin .str]),
   ("description", .builtin .str),
   ("short", .builtin .str),
   ("disabled", .builtin .bool),
   ("tags", .listInst [.builtin .str]),
   ("install_msg", .builtin .str),
   ("min_bot_version", .builtin .str),
   ("max_bot_version", .builtin .str),
   ("hidden", .builtin .bool),
   ("required_cogs", .builtin .dict),
   ("requirements", .listInst [.builtin .str]),
   ("type", cogTypeSpec)]

/-- `CogConfig.DEFAULT_OPTIONS["required-keys"]` (src line 145). -/
def cogDefaultRequired : List String := ["author", "description", "short", "tags"]

/-- A parsed TOML value, as returned by `toml.loads` (a dict at top level,
with nested tables, strings, integers, booleans and arrays). -/
inductive Toml
  | table (entries : List (String × Toml))
  | strv (s : String)
  | intv (n : Int)
  | boolv (b : Bool)
  | arrv (xs : List Toml)

/-- Python truthiness of a TOML value (`if not config`, src line 166). -/
def tomlTruthy : Toml → Bool
  | .table es => !es.isEmpty
  | .strv s => !(s == "")
  | .intv n => n != 0
  | .boolv b => b
  | .arrv xs => !xs.isEmpty

/-- Does the character-list `needle` occur as a contiguous run of `hay`? -/
def containsRun (needle : List Char) : List Char → Bool
  | [] => (stripLit needle []).isSome
  | c :: cs => (stripLit needle (c :: cs)).isSome || containsRun needle cs

/-- Python `key in tomlValue` (src line 163): key membership for a table,
substring search for a string, element equality for an array, and a
`TypeError` for the non-iterable scalar kinds. -/
def tomlContains (t : Toml) (key : String) : Except PyErr Bool :=
  match t with
  | .table es => .ok (lookupKey es key).isSome
  | .strv s => .ok (containsRun key.data s.data)
  | .arrv xs =>
    .ok (xs.any fun x =>
      match x with
      | .strv s => s == key
      | _ => false)
  | .intv _ => .error (.typeError "argument of type 'int' is not iterable")
  | .boolv _ => .error (.typeError "argument of type 'bool' is not iterable")

/-- The outcome of opening and parsing `pyproject.toml`:
`missing` (open raised `FileNotFoundError`), `malformed` (`toml.loads` raised
`TomlDecodeError`), or the parsed top-level table. -/
inductive ConfigFile
  | missing
  | malformed
  | parsed (pyproject : List (String × Toml))

/-- Embedding of `get_config` (src lines 156-174). The `try` block is guarded
only by `except FileNotFoundError` and `except toml.decoder.TomlDecodeError`
(src lines 169-174); the `ConfigNotFound` exceptions raised inside the block
(src lines 162, 164, 167), the `KeyError` from the top-level subscript
`pyproject["red-info-validation"]` (src line 165 — note: not under `"tool"`),
and any `TypeError` from the `in` test propagate uncaught. The function has no
`return` statement, so on every non-raising path it returns `None` (here
`Unit`), never a configuration. -/
def get_config (f : ConfigFile) : Except PyErr Unit :=
  match f with
  | .missing => .ok ()
  | .malformed => .ok ()
  | .parsed pyproject =>
    match lookupKey pyproject "tool" with
    | none => .error .configNotFound
    | some toolv =>
      match tomlContains toolv "red-info-validation" with
      | .error e => .error e
      | .ok contained =>
        if !contained then .error .configNotFound
        else
          match lookupKey pyproject "red-info-validation" with
          | none => .error (.keyError "red-info-validation")
          | some config =>
            if !tomlTruthy config then .error .configNotFound
            else .ok ()

/-- A fully valid Cog document: every key is a schema key with a value of the
documented type, and all four default required keys are present. -/
def validCogDoc : List (String × JValue) :=
  [("author", .list [.str "x"]),
   ("description", .str "d"),
   ("short", .str "s"),
   ("tags", .list [.str "a"])]

/-- Claim C1. The claim states that a full validation run over a document in
which every key is a schema key with a TypeSpec-satisfying value and every
required key is present produces zero diagnostics. The code instead raises:
`validate_info` begins with `self.validate_keys(info)`, an attribute that does
not exist, so every run aborts with `AttributeError` before any check; and
even with the three undefined preliminary calls bypassed, the type-check loop
raises `AttributeError` on `self.validate_type` at the first schema key. No
diagnostics are printed in either case, but no check ever completes. -/
theorem validate_info_aborts_on_fully_valid_doc :
    validate_info cogKEYS cogDefaultRequired false validCogDoc "" "info.json"
      = ([], some (.attributeError "validate_keys")) ∧
    seqRun (keys_loop cogKEYS validCogDoc "" "info.json")
      (seqRun (required_keys_loop cogDefaultRequired validCogDoc false "info.json")
        (types_loop cogKEYS validCogDoc))
      = ([], some (.attributeError "validate_type")) :=
  ⟨rfl, rfl⟩

/-- Claim C2. The claim states that the validator never raises for expected
data-quality problems and surfaces every finding as a diagnostic, running to
completion. The code instead raises on every document: the undefined
`self.validate_keys` aborts `validate_info` with `AttributeError` before any
diagnostic is printed — here on a document whose only problem is the
wrong-case key `Type`; and independently, the key-validity loop itself raises
`Exception` out of `get_key_pos` whenever an unrecognised key does not occur
on the first line of the file. -/
theorem validator_raises_instead_of_diagnosing :
    validate_info cogKEYS cogDefaultRequired false [("Type", .str "COG")]
      "\"Type\": \"COG\"" "info.json"
      = ([], some (.attributeError "validate_keys")) ∧
    keys_loop cogKEYS [("Type", .str "COG")] "x\n\"Type\": \"COG\"" "info.json"
      = ([], some (.exception "could not get position of key")) :=
  ⟨rfl, rfl⟩

/-- Claim C3. The claim states that against a list spec, `type_check` is true
exactly when the value is a list whose every element satisfies the element
spec. In the code, the test `desired_type is list` (src line 48) compares
against the builtin `list` type object and is `False` for the schema list
literal `[str]`, so control falls through to `return type(val) is
desired_type` (src line 64), which is `False` for every value: even the
conforming list `["x"]` is rejected against the Cog `author` spec. -/
theorem list_spec_rejects_conforming_list :
    lookupKey cogKEYS "author" = some (.listInst [.builtin .str]) ∧
    type_check (.list [.str "x"]) (.listInst [.builtin .str]) = .ok (some false) ∧
    type_check (.list [.str "x", .str "y"]) (.listInst [.builtin .str]) = .ok (some false) :=
  ⟨rfl, rfl, rfl⟩

/-- Claim C4. The claim states that `type_check` accepts `"COG"` against the
constrained spec of the Cog `type` key and rejects values outside the
whitelist. In the code, the test `desired_type is dict` (src line 55) is
`False` for the dict literal spec (an instance, not the `dict` type object),
so control falls through to `return type(val) is desired_type`, which is
`False` for every value: the allowed value `"COG"` is rejected exactly like
`"OTHER"`, and the base-then-membership logic of src lines 56-62 never runs. -/
theorem constrained_spec_rejects_allowed_value :
    lookupKey cogKEYS "type" = some cogTypeSpec ∧
    type_check (.str "COG") cogTypeSpec = .ok (some false) ∧
    type_check (.str "OTHER") cogTypeSpec = .ok (some false) :=
  ⟨rfl, rfl, rfl⟩

/-- Claim C5. The claim states that the empty list passes `type_check` against
any list spec (vacuous truth). In the code, a schema list literal such as the
Repo `author` spec `[str]` never enters the list branch (src line 48 compares
with the builtin `list` type object), so `type_check([], [str])` is
`type([]) is [str]`, which is `False`. (Even inside the list branch the claim
would fail: the branch has no `return True`, so an empty list would fall
through and return the falsy `None`.) -/
theorem empty_list_fails_list_spec :
    lookupKey repoKEYS "author" = some (.listInst [.builtin .str]) ∧
    type_check (.list []) (.listInst [.builtin .str]) = .ok (some false) :=
  ⟨rfl, rfl⟩

/-- Claim C6. The claim states that `type_check` is total over the two fixed
schemas — returning `False` on mismatch and never raising. In the code, the
`required_cogs` entry of `CogConfig.KEYS` is the builtin `dict` type object,
which takes the `desired_type is dict` branch; there `"type" in desired_type`
(src line 56) is a membership test on a type object and raises `TypeError:
argument of type 'type' is not iterable` — for a matching dict value and for
a mismatched string value alike. -/
theorem dict_spec_raises_type_error :
    lookupKey cogKEYS "required_cogs" = some (.builtin .dict) ∧
    type_check (.dict [("cog", .str "url")]) (.builtin .dict)
      = .error (.typeError "argument of type 'type' is not iterable") ∧
    type_check (.str "x") (.builtin .dict)
      = .error (.typeError "argument of type 'type' is not iterable") :=
  ⟨rfl, rfl, rfl⟩

/-- Claim C7. The claim states that `get_key_pos` scans line by line and fails
only when no line matches, succeeding whenever some later line matches. In the
code the `raise` sits inside the `for` loop (src lines 22-27), so the function
raises as soon as the FIRST line fails to match, even though — as the second
conjunct shows over the very same line split — the second line of this text
matches the pattern at column 1. -/
theorem get_key_pos_raises_despite_later_match :
    get_key_pos "x\n\"author\": []" "author"
      = .error (.exception "could not get position of key") ∧
    (splitNl ("x\n\"author\": []").data).map (reSearchPos ("author").data)
      = [none, some 0] :=
  ⟨rfl, rfl⟩

/-- Claim C8, counterexample. The claim states that validation emits exactly
one diagnostic at line 1, column 1 for every missing required key. On the
empty document — which is missing all four default required keys — a
validation run emits zero diagnostics: `validate_info` aborts with
`AttributeError` on the undefined `self.validate_keys` before the required-key
loop is reached. -/
theorem validate_info_drops_missing_required_diagnostics :
    validate_info cogKEYS cogDefaultRequired false [] "" "info.json"
      = ([], some (.attributeError "validate_keys")) :=
  rfl

/-- Claim C8, as amended. The required-key loop of `validate_info`
(src lines 92-100) emits, in configuration order, exactly one diagnostic for
each configured required key absent from the document, at line 1 and column 1,
with message containing `required key X missing` (X backquoted), severity
`error` unless ignore-errors mode is on, in which case `warning` — but
`validate_info` as released raises `AttributeError` before this loop runs. -/
theorem required_missing_diagnostics (req : List String)
    (info : List (String × JValue)) (ign : Bool) (f : String) :
    required_keys_loop req info ign f =
      ((req.filter (fun k => (lookupKey info k).isNone)).map
        (fun k => ⟨if !ign then "error" else "warning", f, 1, 1,
          "KeyError: required key `" ++ k ++ "` missing"⟩), none) := by
  induction req with
  | nil => rfl
  | cons k rest ih =>
    cases h : lookupKey info k with
    | some v => simp [required_keys_loop, h, ih, List.filter_cons]
    | none => simp [required_keys_loop, h, ih, List.filter_cons]

/-- Claim C9. The claim states that configuration loading never raises and
silently falls back to defaults when the file, the section, or the parse is
bad. The code only catches `FileNotFoundError` and `TomlDecodeError`: when the
parsed file lacks a `tool` table it raises its own `ConfigNotFound`, which no
handler catches; and even when `[tool.red-info-validation]` is present, the
subsequent subscript `pyproject["red-info-validation"]` is taken at top level
and raises an uncaught `KeyError`. -/
theorem get_config_raises_uncaught :
    get_config (.parsed []) = .error .configNotFound ∧
    get_config (.parsed [("tool", .table
        [("red-info-validation", .table [("required-keys", .arrv [.strv "author"])])])])
      = .error (.keyError "red-info-validation") :=
  ⟨rfl, rfl⟩

/-- Claim C10. For every document key absent from the schema that the
key-validity loop reports (the loop having run to completion, and
`get_key_pos` having located the key at line `l`, column `c`), the emitted
warning carries the position components swapped: its `line` field holds the
column `c` and its `col` field holds the line `l`, because src lines 76-90
pass `col, line` into the `line, col` parameters of `print_message`. The
message is the lowercase hint when the lowercased key is a schema key, and
the unrecognised-key text otherwise. -/
theorem unknown_key_warning_swaps_line_col
    (KEYS : List (String × DType)) (info : List (String × JValue))
    (ftext f key : String) (l c : Nat)
    (hk : lookupKey KEYS key = none)
    (hm : key ∈ info.map Prod.fst)
    (hp : get_key_pos ftext key = .ok (some (l, c)))
    (hdone : (keys_loop KEYS info ftext f).2 = none) :
    ∃ d, d ∈ (keys_loop KEYS info ftext f).1 ∧ d.line = c ∧ d.col = l ∧
      d.message =
        (if (lookupKey KEYS (pyLower key)).isSome then
          "KeyError: key `" ++ key ++ "` needs to be lowercase"
        else
          "KeyError: unrecognised key `" ++ key ++ "`") := by
  induction info with
  | nil => simp at hm
  | cons kv rest ih =>
    obtain ⟨k0, v0⟩ := kv
    rw [List.map_cons] at hm
    rcases List.mem_cons.mp hm with hkey | hkey
    · subst hkey
      have h0 : (lookupKey KEYS key).isSome = false := by simp [hk]
      refine ⟨⟨"warning", f, c, l,
        if (lookupKey KEYS (pyLower key)).isSome then
          "KeyError: key `" ++ key ++ "` needs to be lowercase"
        else
          "KeyError: unrecognised key `" ++ key ++ "`"⟩, ?_, rfl, rfl, rfl⟩
      simp [keys_loop, h0, hp]
    · by_cases h0 : (lookupKey KEYS k0).isSome
      · have hloop : keys_loop KEYS ((k0, v0) :: rest) ftext f
            = keys_loop KEYS rest ftext f := by
          simp [keys_loop, h0]
        rw [hloop] at hdone ⊢
        exact ih hkey hdone
      · have h0n : lookupKey KEYS k0 = none := by
          cases hl : lookupKey KEYS k0 with
          | none => rfl
          | some v => rw [hl] at h0; simp at h0
        cases hg : get_key_pos ftext k0 with
        | error e =>
          have : (keys_loop KEYS ((k0, v0) :: rest) ftext f).2 = some e := by
            simp [keys_loop, h0n, hg]
          rw [this] at hdone
          simp at hdone
        | ok o =>
          cases o with
          | none =>
            have : (keys_loop KEYS ((k0, v0) :: rest) ftext f).2
                = some (.typeError "cannot unpack non-iterable NoneType object") := by
              simp [keys_loop, h0n, hg]
            rw [this] at hdone
            simp at hdone
          | some pos =>
            obtain ⟨l0, c0⟩ := pos
            have hfst : (keys_loop KEYS ((k0, v0) :: rest) ftext f).1
                = ⟨"warning", f, c0, l0,
                    if (lookupKey KEYS (pyLower k0)).isSome then
                      "KeyError: key `" ++ k0 ++ "` needs to be lowercase"
                    else
                      "KeyError: unrecognised key `" ++ k0 ++ "`"⟩
                  :: (keys_loop KEYS rest ftext f).1 := by
              simp [keys_loop, h0n, hg]
            have hsnd : (keys_loop KEYS ((k0, v0) :: rest) ftext f).2
                = (keys_loop KEYS rest ftext f).2 := by
              simp [keys_loop, h0n, hg]
            rw [hsnd] at hdone
            obtain ⟨d, hd, h1, h2, h3⟩ := ih hkey hdone
            rw [hfst]
            exact ⟨d, List.mem_cons_of_mem _ hd, h1, h2, h3⟩

/-- Witness for claim C10: the document with the single wrong-case key `Type`,
whose position in the text is line 1, column 3; the emitted warning carries
line 3, column 1. -/
theorem unknown_key_warning_swaps_line_col_witness :
    ∃ d, d ∈ (keys_loop cogKEYS [("Type", JValue.str "COG")]
        "  \"Type\": \"COG\"" "info.json").1 ∧
      d.line = 3 ∧ d.col = 1 ∧
      d.message =
        (if (lookupKey cogKEYS (pyLower "Type")).isSome then
          "KeyError: key `" ++ "Type" ++ "` needs to be lowercase"
        else
          "KeyError: unrecognised key `" ++ "Type" ++ "`") :=
  unknown_key_warning_swaps_line_col cogKEYS [("Type", JValue.str "COG")]
    "  \"Type\": \"COG\"" "info.json" "Type" 1 3 rfl (by simp) rfl rfl
